import Mathlib

/-!
Verification of the APX intercepting WebSocket proxy (src/proxy.rs,
src/registry.rs, src/proto.rs) against its natural-language specification.

The Rust code is shallowly embedded: JSON values (serde_json::Value) become
the inductive type `J`, the per-message handlers `handle_client_message` /
`handle_upstream_message` and the registry's `route_bounce` become pure Lean
functions, channel sends and signal emissions become returned lists, and the
random DeathLink roll becomes an explicit stream of rationals.
-/

namespace APX

/-- JSON numbers as stored by serde_json: integer literals that fit the
machine ranges stay integers, everything else becomes an IEEE double. The
double is modelled exactly as a normalized decimal `float m e` standing for
m·10^e (no claim checked here inspects a non-integral numeric value, so only
the int/float distinction and integer values matter). -/
inductive JNum where
  | int : Int → JNum
  | float : Int → Int → JNum
deriving DecidableEq

/-- JSON values as manipulated by serde_json. Objects are ordered association
lists; the parser collapses duplicate keys last-wins, mirroring serde_json's
map. -/
inductive J where
  | null : J
  | bool : Bool → J
  | num : JNum → J
  | str : String → J
  | arr : List J → J
  | obj : List (String × J) → J

/-- First-match lookup in an object's field list (parsed objects have unique
keys, matching serde_json's map semantics). -/
def jlookup : List (String × J) → String → Option J
  | [], _ => none
  | (k, v) :: rest, key => if k = key then some v else jlookup rest key

/-- Value::get on an object; None on any other value (serde_json). -/
def J.get : J → String → Option J
  | .obj fields, key => jlookup fields key
  | _, _ => none

/-- Value::as_str. -/
def J.asStr : J → Option String
  | .str s => some s
  | _ => none

/-- Value::as_array. -/
def J.asArr : J → Option (List J)
  | .arr xs => some xs
  | _ => none

/-- Value::as_bool. -/
def J.asBool : J → Option Bool
  | .bool b => some b
  | _ => none

/-- The numeric payload of a JSON number. -/
def J.asNum : J → Option JNum
  | .num q => some q
  | _ => none

/-- The value of an integer-variant JSON number (serde's unsigned/signed
integer visitors reject float-variant numbers). -/
def J.asIntNum : J → Option Int
  | .num (.int n) => some n
  | _ => none

/-- serde deserialization of a u32. -/
def J.asU32 (v : J) : Option Nat :=
  v.asIntNum >>= fun n => if 0 ≤ n ∧ n < (2 ^ 32 : Int) then some n.toNat else none

/-- serde deserialization of a u8. -/
def J.asU8 (v : J) : Option Nat :=
  v.asIntNum >>= fun n => if 0 ≤ n ∧ n < (256 : Int) then some n.toNat else none

/-- serde deserialization of an i64. -/
def J.asI64 (v : J) : Option Int :=
  v.asIntNum >>= fun n =>
    if -(2 ^ 63 : Int) ≤ n ∧ n < (2 ^ 63 : Int) then some n else none

/-- serde deserialization of an i32. -/
def J.asI32 (v : J) : Option Int :=
  v.asIntNum >>= fun n =>
    if -(2 ^ 31 : Int) ≤ n ∧ n < (2 ^ 31 : Int) then some n else none

/-- Replace the value stored under `key` (every occurrence, so that on the
unique-key values serde produces this is exactly map insert), or append the
binding when the key is absent. Models serde_json Map::insert composed with
as_object_mut: non-objects are returned unchanged. -/
def objInsertDedup (fields : List (String × J)) (key : String) (v : J) : List (String × J) :=
  if fields.any (fun p => p.1 = key) then
    fields.map (fun p => if p.1 = key then (key, v) else p)
  else fields ++ [(key, v)]

def J.setField (j : J) (key : String) (v : J) : J :=
  match j with
  | .obj fields => .obj (objInsertDedup fields key v)
  | _ => j

/-- get_cmd from src/proxy.rs: value.get("cmd").and_then(as_str). -/
def get_cmd (v : J) : Option String := (v.get "cmd").bind J.asStr

/-! ## JSON text parsing (serde_json::from_str), fuel-driven recursive descent -/

def isJsonWs (c : Char) : Bool := c = ' ' || c = '\t' || c = '\n' || c = '\r'

def skipWs : List Char → List Char
  | [] => []
  | c :: rest => if isJsonWs c then skipWs rest else c :: rest

def hexVal (c : Char) : Option Nat :=
  if '0' ≤ c ∧ c ≤ '9' then some (c.toNat - '0'.toNat)
  else if 'a' ≤ c ∧ c ≤ 'f' then some (c.toNat - 'a'.toNat + 10)
  else if 'A' ≤ c ∧ c ≤ 'F' then some (c.toNat - 'A'.toNat + 10)
  else none

/-- Body of a JSON string literal (after the opening quote), with the JSON
escape sequences; lone surrogates are rejected (surrogate pairs are not
reassembled — no input considered here uses them). -/
def parseStrRaw : Nat → List Char → List Char → Option (String × List Char)
  | 0, _, _ => none
  | fuel + 1, acc, cs =>
    match cs with
    | [] => none
    | '"' :: rest => some (String.mk acc.reverse, rest)
    | '\\' :: e :: rest =>
      if e = '"' ∨ e = '\\' ∨ e = '/' then parseStrRaw fuel (e :: acc) rest
      else if e = 'b' then parseStrRaw fuel (Char.ofNat 8 :: acc) rest
      else if e = 'f' then parseStrRaw fuel (Char.ofNat 12 :: acc) rest
      else if e = 'n' then parseStrRaw fuel ('\n' :: acc) rest
      else if e = 'r' then parseStrRaw fuel ('\r' :: acc) rest
      else if e = 't' then parseStrRaw fuel ('\t' :: acc) rest
      else if e = 'u' then
        match rest with
        | h1 :: h2 :: h3 :: h4 :: rest2 =>
          match hexVal h1, hexVal h2, hexVal h3, hexVal h4 with
          | some a, some b, some c, some d =>
            let code := ((a * 16 + b) * 16 + c) * 16 + d
            if 0xD800 ≤ code ∧ code < 0xE000 then none
            else parseStrRaw fuel (Char.ofNat code :: acc) rest2
          | _, _, _, _ => none
        | _ => none
      else none
    | c :: rest => parseStrRaw fuel (c :: acc) rest

def takeDigits : List Char → List Char × List Char
  | [] => ([], [])
  | c :: rest =>
    if c.isDigit then
      let (d, r) := takeDigits rest
      (c :: d, r)
    else ([], c :: rest)

def digitsVal (ds : List Char) : Nat :=
  ds.foldl (fun acc c => acc * 10 + (c.toNat - '0'.toNat)) 0

/-- Strip factors of ten from a decimal mantissa, so that equal decimal
values get equal representations. -/
def stripZeros : Nat → Int → Int → Int × Int
  | 0, m, e => (m, e)
  | fuel + 1, m, e =>
    if m ≠ 0 ∧ m % 10 = 0 then stripZeros fuel (m / 10) (e + 1) else (m, e)

/-- Assemble a parsed JSON number the way serde_json does: a plain integer
literal within the u64/i64 machine ranges stays an integer, anything else
(fraction, exponent, or out of range) becomes a double, modelled as a
normalized exact decimal. -/
def mkJNum (neg : Bool) (ds : List Char) (fracDs : Option (List Char))
    (eneg : Bool) (expDs : Option (List Char)) : JNum :=
  let intVal : Int := (digitsVal ds : Int)
  let plain := fracDs = none ∧ expDs = none
  if plain ∧ (if neg then intVal ≤ 2 ^ 63 else intVal < 2 ^ 64) then
    .int (if neg then -intVal else intVal)
  else
    let fracList := fracDs.getD []
    let mant : Int := (digitsVal (ds ++ fracList) : Int)
    let expVal : Int := (digitsVal (expDs.getD []) : Int)
    let e0 : Int := (if eneg then -expVal else expVal) - fracList.length
    if mant = 0 then .float 0 0
    else
      let (m, e) := stripZeros (ds ++ fracList).length mant e0
      .float (if neg then -m else m) e

/-- A JSON number (RFC 8259 grammar: no leading zeros, at least one digit,
optional fraction and exponent). -/
def parseNum (cs : List Char) : Option (J × List Char) :=
  let (neg, cs1) :=
    match cs with
    | '-' :: r => (true, r)
    | _ => (false, cs)
  let (ds, cs2) := takeDigits cs1
  if ds = [] then none
  else if ds.length > 1 ∧ ds.head? = some '0' then none
  else
    let (fracDigits, cs3) :=
      match cs2 with
      | '.' :: r =>
        let (fd, r2) := takeDigits r
        (some fd, r2)
      | _ => (none, cs2)
    match fracDigits with
    | some [] => none
    | _ =>
      let expPart : Option (Bool × (List Char × List Char)) :=
        match cs3 with
        | 'e' :: r =>
          (match r with
           | '+' :: r2 => some (false, takeDigits r2)
           | '-' :: r2 => some (true, takeDigits r2)
           | _ => some (false, takeDigits r))
        | 'E' :: r =>
          (match r with
           | '+' :: r2 => some (false, takeDigits r2)
           | '-' :: r2 => some (true, takeDigits r2)
           | _ => some (false, takeDigits r))
        | _ => (none : Option (Bool × (List Char × List Char)))
      match expPart with
      | some (eneg, (eds, r3)) =>
        if eds = [] then none
        else some (.num (mkJNum neg ds fracDigits eneg (some eds)), r3)
      | none => some (.num (mkJNum neg ds fracDigits false none), cs3)

mutual

def parseVal : Nat → List Char → Option (J × List Char)
  | 0, _ => none
  | fuel + 1, cs =>
    match skipWs cs with
    | 'n' :: 'u' :: 'l' :: 'l' :: rest => some (.null, rest)
    | 't' :: 'r' :: 'u' :: 'e' :: rest => some (.bool true, rest)
    | 'f' :: 'a' :: 'l' :: 's' :: 'e' :: rest => some (.bool false, rest)
    | '"' :: rest =>
      match parseStrRaw fuel [] rest with
      | some (s, r) => some (.str s, r)
      | none => none
    | '[' :: rest => parseArrBody fuel rest
    | '{' :: rest => parseObjBody fuel rest
    | cs' => parseNum cs'

def parseArrBody : Nat → List Char → Option (J × List Char)
  | 0, _ => none
  | fuel + 1, cs =>
    match skipWs cs with
    | ']' :: rest => some (.arr [], rest)
    | cs' =>
      match parseVal fuel cs' with
      | some (v, r) => parseArrRest fuel [v] r
      | none => none

def parseArrRest : Nat → List J → List Char → Option (J × List Char)
  | 0, _, _ => none
  | fuel + 1, acc, cs =>
    match skipWs cs with
    | ',' :: rest =>
      match parseVal fuel rest with
      | some (v, r) => parseArrRest fuel (acc ++ [v]) r
      | none => none
    | ']' :: rest => some (.arr acc, rest)
    | _ => none

def parseObjBody : Nat → List Char → Option (J × List Char)
  | 0, _ => none
  | fuel + 1, cs =>
    match skipWs cs with
    | '}' :: rest => some (.obj [], rest)
    | '"' :: rest =>
      match parseStrRaw fuel [] rest with
      | some (k, r) => parseObjPair fuel [] k r
      | none => none
    | _ => none

def parseObjPair : Nat → List (String × J) → String → List Char → Option (J × List Char)
  | 0, _, _, _ => none
  | fuel + 1, fields, k, cs =>
    match skipWs cs with
    | ':' :: rest =>
      match parseVal fuel rest with
      | some (v, r) => parseObjRest fuel (objInsertDedup fields k v) r
      | none => none
    | _ => none

def parseObjRest : Nat → List (String × J) → List Char → Option (J × List Char)
  | 0, _, _ => none
  | fuel + 1, fields, cs =>
    match skipWs cs with
    | ',' :: rest =>
      match skipWs rest with
      | '"' :: rest2 =>
        match parseStrRaw fuel [] rest2 with
        | some (k, r) => parseObjPair fuel fields k r
        | none => none
      | _ => none
    | '}' :: rest => some (.obj fields, rest)
    | _ => none

end

/-- serde_json::from_str::<Value>: parse a complete JSON document (trailing
whitespace allowed, nothing else). -/
def parseJson (t : String) : Option J :=
  let cs := t.toList
  match parseVal (2 * cs.length + 2) cs with
  | some (v, rest) => if skipWs rest = [] then some v else none
  | none => none

/-- parse_message from src/proxy.rs: try a JSON array first
(from_str::<Vec<Value>> succeeds exactly on JSON arrays), then any single
JSON value, else fail. -/
def parse_message (text : String) : Except String (List J) :=
  match parseJson text with
  | some (.arr commands) => .ok commands
  | some single => .ok [single]
  | none => .error "Could not parse message as JSON"

/-! ## Chat-command detection (is_command from src/proxy.rs) -/

/-- Whitespace as recognized by the shlex crate's lexer. -/
def isShlexWs (c : Char) : Bool := c = ' ' || c = '\t' || c = '\n'

mutual

/-- One shell word, modelled from the shlex crate used by is_command:
single quotes are literal runs, double quotes allow backslash escapes of
the shell-special characters, a bare backslash escapes the next character,
and end-of-input inside a quote or right after a backslash is an error. -/
def shlexWord : Nat → List Char → List Char → Option (String × List Char)
  | 0, _, _ => none
  | fuel + 1, acc, cs =>
    match cs with
    | [] => some (String.mk acc.reverse, [])
    | '\'' :: rest => shlexSingle fuel acc rest
    | '"' :: rest => shlexDouble fuel acc rest
    | '\\' :: e :: rest => shlexWord fuel (e :: acc) rest
    | ['\\'] => none
    | c :: rest =>
      if isShlexWs c then some (String.mk acc.reverse, rest)
      else shlexWord fuel (c :: acc) rest

def shlexSingle : Nat → List Char → List Char → Option (String × List Char)
  | 0, _, _ => none
  | fuel + 1, acc, cs =>
    match cs with
    | [] => none
    | '\'' :: rest => shlexWord fuel acc rest
    | c :: rest => shlexSingle fuel (c :: acc) rest

def shlexDouble : Nat → List Char → List Char → Option (String × List Char)
  | 0, _, _ => none
  | fuel + 1, acc, cs =>
    match cs with
    | [] => none
    | '"' :: rest => shlexWord fuel acc rest
    | '\\' :: e :: rest =>
      if e = '"' ∨ e = '\\' ∨ e = '$' ∨ e = '`' then shlexDouble fuel (e :: acc) rest
      else shlexDouble fuel (e :: '\\' :: acc) rest
    | ['\\'] => none
    | c :: rest => shlexDouble fuel (c :: acc) rest

end

def shlexWords : Nat → List Char → Option (List String)
  | 0, _ => none
  | fuel + 1, cs =>
    match cs with
    | [] => some []
    | c :: rest =>
      if isShlexWs c then shlexWords fuel rest
      else
        match shlexWord fuel [] (c :: rest) with
        | some (w, r) =>
          match shlexWords fuel r with
          | some ws => some (w :: ws)
          | none => none
        | none => none

/-- shlex::split: tokenize, None on a lexing error (e.g. unclosed quote). -/
def shlexSplit (s : String) : Option (List String) :=
  shlexWords (2 * s.toList.length + 2) s.toList

/-- Whitespace as trimmed by str::trim / split by split_whitespace (ASCII
subset; the texts handled here contain no exotic Unicode spaces). -/
def wsChar (c : Char) : Bool := c = ' ' || c = '\t' || c = '\n' || c = '\r'

/-- str::trim on a character list. -/
def trimChars (cs : List Char) : List Char :=
  ((cs.dropWhile wsChar).reverse.dropWhile wsChar).reverse

/-- str::split_whitespace (empty runs skipped). -/
def splitWsAux : List Char → List Char → List String
  | [], acc => if acc.isEmpty then [] else [String.mk acc.reverse]
  | c :: rest, acc =>
    if wsChar c then
      if acc.isEmpty then splitWsAux rest []
      else String.mk acc.reverse :: splitWsAux rest []
    else splitWsAux rest (c :: acc)

/-- ASCII lowercasing of one character. -/
def asciiLower (c : Char) : Char :=
  if 'A' ≤ c ∧ c ≤ 'Z' then Char.ofNat (c.toNat + 32) else c

/-- str::eq_ignore_ascii_case. -/
def eqIgnoreAsciiCase (a b : String) : Bool :=
  a.toList.map asciiLower == b.toList.map asciiLower

/-- is_command from src/proxy.rs: trim, shell-tokenize (falling back to a
whitespace split when tokenization fails), then require the first token to
start with the marker character and match command_name ignoring ASCII case. -/
def is_command (text command_name : String) : Bool :=
  let trimmed := trimChars text.toList
  if trimmed.isEmpty then false
  else
    let parts :=
      match shlexWords (2 * trimmed.length + 2) trimmed with
      | some parts => parts
      | none => splitWsAux trimmed []
    match parts with
    | [] => false
    | first :: _ =>
      match first.toList with
      | '!' :: restChars => eqIgnoreAsciiCase (String.mk restChars) command_name
      | _ => false

/-! ## Typed command views (src/proto.rs, serde derives) -/

/-- serde Vec<String>. -/
def strListOfJ (v : J) : Option (List String) := do
  let xs ← v.asArr
  xs.mapM J.asStr

/-- serde Vec<i64>. -/
def intListOfJ (v : J) : Option (List Int) := do
  let xs ← v.asArr
  xs.mapM J.asI64

/-- A struct field carrying serde(default): a missing field takes the
default, a present field must deserialize. -/
def optField {α : Type} (j : J) (key : String) (f : J → Option α) (d : α) : Option α :=
  match j.get key with
  | none => some d
  | some v => f v

/-- An Option<String> struct field: missing or null is None, a string is
Some, anything else fails. -/
def optStrField (j : J) (key : String) : Option (Option String) :=
  match j.get key with
  | none => some none
  | some .null => some none
  | some (.str s) => some (some s)
  | some _ => none

structure Say where
  cmd : String
  text : String

def parseSay (j : J) : Option Say := do
  let cmd ← j.get "cmd" >>= J.asStr
  let text ← j.get "text" >>= J.asStr
  pure ⟨cmd, text⟩

/-- GetDataPackage. proto.rs declares cmd and games (serde(default));
proxy.rs also reads an exclusions field, whose declaration is not in the
snapshot. Modelled from the spec: "The games and exclusions fields on the
request select the projection", with the same serde(default) treatment as
games. -/
structure GetDataPackage where
  cmd : String
  games : List String
  exclusions : List String

def parseGetDataPackage (j : J) : Option GetDataPackage := do
  let cmd ← j.get "cmd" >>= J.asStr
  let games ← optField j "games" strListOfJ []
  let exclusions ← optField j "exclusions" strListOfJ []
  pure ⟨cmd, games, exclusions⟩

/-- Bounced from src/proto.rs: cmd, tags (serde(default)), data (required). -/
structure Bounced where
  cmd : String
  tags : List String
  data : J

def parseBounced (j : J) : Option Bounced := do
  let cmd ← j.get "cmd" >>= J.asStr
  let tags ← optField j "tags" strListOfJ []
  let data ← j.get "data"
  pure ⟨cmd, tags, data⟩

/-- ConnectUpdate. Modelled from the spec: the declaration is not in the
snapshot (proxy.rs imports it from crate::proto); per the spec it is "a
client command that updates connection tags after login" whose tag list the
proxy reads and may extend, so it carries cmd and tags. -/
structure ConnectUpdate where
  cmd : String
  tags : List String

def parseConnectUpdate (j : J) : Option ConnectUpdate := do
  let cmd ← j.get "cmd" >>= J.asStr
  let tags ← j.get "tags" >>= strListOfJ
  pure ⟨cmd, tags⟩

/-- serde_json::to_value of a ConnectUpdate. -/
def connectUpdateToJ (u : ConnectUpdate) : J :=
  .obj [("cmd", .str u.cmd), ("tags", .arr (u.tags.map J.str))]

structure JSONMessagePart where
  text : String
  type_ : Option String
  color : Option String

def parseJSONMessagePart (j : J) : Option JSONMessagePart := do
  let text ← j.get "text" >>= J.asStr
  let ty ← optStrField j "type"
  let color ← optStrField j "color"
  pure ⟨text, ty, color⟩

structure PrintJSONMsg where
  cmd : String
  data : List JSONMessagePart
  type_ : Option String
  tags : List String

def parsePrintJSON (j : J) : Option PrintJSONMsg := do
  let cmd ← j.get "cmd" >>= J.asStr
  let dataArr ← j.get "data" >>= J.asArr
  let data ← dataArr.mapM parseJSONMessagePart
  let ty ← optStrField j "type"
  let tags ← optField j "tags" strListOfJ []
  pure ⟨cmd, data, ty, tags⟩

/-- PrintJSON::with_color from src/proto.rs followed by
serde_json::to_value: one colored message part, no top-level type, empty
tags (fields with skip_serializing_if on None are omitted). -/
def printJsonWithColor (text color : String) : J :=
  .obj [("cmd", .str "PrintJSON"),
        ("data", .arr [.obj [("text", .str text), ("type", .str "color"), ("color", .str color)]]),
        ("tags", .arr [])]

structure NetworkPlayer where
  team : Nat
  slot : Nat
  aliasName : String
  name : String

def parseNetworkPlayer (j : J) : Option NetworkPlayer := do
  let team ← j.get "team" >>= J.asU32
  let slot ← j.get "slot" >>= J.asU32
  let aliasName ← j.get "alias" >>= J.asStr
  let name ← j.get "name" >>= J.asStr
  pure ⟨team, slot, aliasName, name⟩

structure SlotInfoEntry where
  name : String
  game : String
  type_ : Nat
  group_members : Option (List Nat)

def parseSlotInfoEntry (j : J) : Option SlotInfoEntry := do
  let name ← j.get "name" >>= J.asStr
  let game ← j.get "game" >>= J.asStr
  let ty ← j.get "type" >>= J.asU8
  let gm ←
    match j.get "group_members" with
    | none => some none
    | some .null => some none
    | some v => do
      let xs ← v.asArr
      let ns ← xs.mapM J.asU32
      pure (some ns)
  pure ⟨name, game, ty, gm⟩

/-- Connected from src/proto.rs. -/
structure ConnectedMsg where
  cmd : String
  team : Nat
  slot : Nat
  players : List NetworkPlayer
  missing_locations : List Int
  checked_locations : List Int
  slot_data : Option J
  slot_info : List (String × SlotInfoEntry)
  hint_points : Option Int

def parseConnected (j : J) : Option ConnectedMsg := do
  let cmd ← j.get "cmd" >>= J.asStr
  let team ← j.get "team" >>= J.asU32
  let slot ← j.get "slot" >>= J.asU32
  let playersArr ← j.get "players" >>= J.asArr
  let players ← playersArr.mapM parseNetworkPlayer
  let ml ← j.get "missing_locations" >>= intListOfJ
  let cl ← j.get "checked_locations" >>= intListOfJ
  let sd : Option J :=
    match j.get "slot_data" with
    | some .null => none
    | v => v
  let siObj ←
    match j.get "slot_info" with
    | some (.obj fs) => some fs
    | _ => none
  let slot_info ← siObj.mapM fun p => do
    let e ← parseSlotInfoEntry p.2
    pure (p.1, e)
  let hp ←
    match j.get "hint_points" with
    | none => some none
    | some .null => some none
    | some v => (J.asI32 v).map some
  pure ⟨cmd, team, slot, players, ml, cl, sd, slot_info, hp⟩

structure VersionWithClass where
  major : Nat
  minor : Nat
  build : Nat
  class_name : String

def parseVersionWithClass (j : J) : Option VersionWithClass := do
  let major ← j.get "major" >>= J.asU32
  let minor ← j.get "minor" >>= J.asU32
  let build ← j.get "build" >>= J.asU32
  let cn ← j.get "class" >>= J.asStr
  pure ⟨major, minor, build, cn⟩

def versionToJ (v : VersionWithClass) : J :=
  .obj [("major", .num (.int v.major)), ("minor", .num (.int v.minor)),
        ("build", .num (.int v.build)), ("class", .str v.class_name)]

/-- Permissions from src/proto.rs; serde_repr admits exactly the declared
discriminants. -/
structure Permissions where
  release : Nat
  collect : Nat
  remaining : Nat

def parsePermissions (j : J) : Option Permissions := do
  let r ← j.get "release" >>= J.asU8
  guard (r = 0 ∨ r = 1 ∨ r = 2 ∨ r = 6 ∨ r = 7)
  let c ← j.get "collect" >>= J.asU8
  guard (c = 0 ∨ c = 1 ∨ c = 2 ∨ c = 6 ∨ c = 7)
  let m ← j.get "remaining" >>= J.asU8
  guard (m = 0 ∨ m = 1 ∨ m = 2)
  pure ⟨r, c, m⟩

def permissionsToJ (p : Permissions) : J :=
  .obj [("release", .num (.int p.release)), ("collect", .num (.int p.collect)),
        ("remaining", .num (.int p.remaining))]

/-- RoomInfo from src/proto.rs. -/
structure RoomInfoMsg where
  cmd : String
  password : Bool
  games : List String
  tags : List String
  version : VersionWithClass
  generator_version : VersionWithClass
  permissions : Permissions
  hint_cost : Nat
  location_check_points : Nat
  datapackage_checksums : J
  seed_name : String
  time : JNum

def parseRoomInfo (j : J) : Option RoomInfoMsg := do
  let cmd ← j.get "cmd" >>= J.asStr
  let password ← j.get "password" >>= J.asBool
  let games ← j.get "games" >>= strListOfJ
  let tags ← j.get "tags" >>= strListOfJ
  let version ← j.get "version" >>= parseVersionWithClass
  let gv ← j.get "generator_version" >>= parseVersionWithClass
  let permissions ← j.get "permissions" >>= parsePermissions
  let hint_cost ← optField j "hint_cost" J.asU32 0
  let lcp ← optField j "location_check_points" J.asU32 0
  let dc := (j.get "datapackage_checksums").getD J.null
  let seed_name ← optField j "seed_name" J.asStr ""
  let time ← optField j "time" J.asNum (.int 0)
  pure ⟨cmd, password, games, tags, version, gv, permissions, hint_cost, lcp, dc, seed_name, time⟩

/-- serde_json::to_value of a RoomInfo (field order is the struct order; the
spec makes no field-order guarantee contractual). -/
def roomInfoToJ (r : RoomInfoMsg) : J :=
  .obj [("cmd", .str r.cmd), ("password", .bool r.password),
        ("games", .arr (r.games.map J.str)), ("tags", .arr (r.tags.map J.str)),
        ("version", versionToJ r.version), ("generator_version", versionToJ r.generator_version),
        ("permissions", permissionsToJ r.permissions),
        ("hint_cost", .num (.int r.hint_cost)),
        ("location_check_points", .num (.int r.location_check_points)),
        ("datapackage_checksums", r.datapackage_checksums),
        ("seed_name", .str r.seed_name), ("time", .num r.time)]

/-! ## Shared state, decisions, and the per-message client handler
(src/proxy.rs) -/

/-- The DataPackage cache interface used by handle_client_message. Modelled
from the spec: the DataPackageCache type lives at the crate root, which is
not part of the snapshot; per the spec it exposes one pre-serialized full
response plus pure projections by inclusion or exclusion list, all returned
as shared immutable text. -/
structure DataPackageCache where
  full_response : String
  response_for_games : List String → String
  response_excluding_games : List String → String

/-- ConnectionState from src/proxy.rs. -/
inductive ConnectionState where
  | WaitingForRoomInfo
  | WaitingForConnect
  | WaitingForConnected (password : String) (tags : List String) (game : String)
  | LoggedIn

/-- RegistrationData from src/proxy.rs (SlotId/TeamId are u32 newtypes). -/
structure RegistrationData where
  slot : Nat
  team : Nat
  game : String
  tags : List String

/-- MessageDecision from src/proxy.rs. DropWithRawResponse carries the
shared pre-serialized text. -/
inductive MessageDecision where
  | Forward
  | ForwardWithRegistration (registration : RegistrationData) (inject_response : Option J)
  | Modified
  | Drop
  | DropAndRoute
  | DropWithResponse (v : J)
  | DropWithRawResponse (raw : String)
  | SendConnectionRefused

/-- Signal from src/config.rs; an element of the returned list models one
try_send on the signal channel. -/
inductive Signal where
  | DeathLink (slot : Nat) (source : String) (cause : Option String)
  | CountdownInit (slot : Nat)

/-- MAX_SAY_LENGTH from src/proxy.rs (compared against String::len, i.e.
UTF-8 bytes). -/
def MAX_SAY_LENGTH : Nat := 2000

def sayTooLongDenial : J :=
  printJsonWithColor "Your message is too long. Please reconsider." "red"

def countdownDenial : J :=
  printJsonWithColor "Starting countdowns is not allowed. This attempt has been logged." "red"

/-- The synthesized refusal frame sent on a failed password check
(serde_json::json! in src/proxy.rs). -/
def connectionRefusedJ : J :=
  .obj [("cmd", .str "ConnectionRefused"), ("errors", .arr [.str "InvalidPassword"])]

/-- Rust: say.text field read as a string list plus unwrap_or_default, from
the Connect command's tags array. -/
def jTags (j : J) : List String :=
  match (j.get "tags").bind J.asArr with
  | some xs => xs.filterMap J.asStr
  | none => []

/-- A string field read with .and_then(as_str).unwrap_or(""). -/
def jStrD (j : J) (key : String) : String :=
  match (j.get key).bind J.asStr with
  | some s => s
  | none => ""

/-- The NoText injection performed on an intercepted Connect:
entry("tags").or_insert(empty array), then push "NoText" when the entry is
an array not already containing it. -/
def pushNoText : J → J
  | .arr xs =>
    if xs.any (fun v => match v with | .str s => s = "NoText" | _ => false) then .arr xs
    else .arr (xs ++ [J.str "NoText"])
  | v => v

def injectNoTextConnect (cmd : J) : J :=
  match cmd with
  | .obj fields =>
    let fields' := if fields.any (fun p => p.1 = "tags") then fields else fields ++ [("tags", J.arr [])]
    .obj (fields'.map fun p => if p.1 = "tags" then (p.1, pushNoText p.2) else p)
  | _ => cmd

/-- The result of handling one client message: the (possibly mutated)
connection state and command, the routing decision, and the signals whose
emission the handler attempted. -/
structure ClientMsgOut where
  state : ConnectionState
  cmd : J
  decision : MessageDecision
  signals : List Signal

/-- The state-machine tail of handle_client_message (the match on state at
the end of the function). -/
def clientStateStep (state : ConnectionState) (cmd : J) (inject_notext : Bool) :
    Except String ClientMsgOut :=
  match state with
  | .WaitingForRoomInfo =>
    .error "Received message from client while waiting for RoomInfo. This is a client bug."
  | .WaitingForConnect =>
    if get_cmd cmd ≠ some "Connect" then
      .ok ⟨.WaitingForConnect, cmd, .Drop, []⟩
    else
      let password := jStrD cmd "password"
      let game := jStrD cmd "game"
      let cmd1 := cmd.setField "password" (J.str "")
      let cmd2 := if inject_notext then injectNoTextConnect cmd1 else cmd1
      let tags := jTags cmd2
      .ok ⟨.WaitingForConnected password tags game, cmd2, .Modified, []⟩
  | .WaitingForConnected _ _ _ =>
    .ok ⟨state, cmd, .Drop, []⟩
  | .LoggedIn =>
    if inject_notext ∧ get_cmd cmd = some "ConnectUpdate" then
      match parseConnectUpdate cmd with
      | some update =>
        if ¬ update.tags.contains "NoText" then
          .ok ⟨.LoggedIn, connectUpdateToJ ⟨update.cmd, update.tags ++ ["NoText"]⟩, .Modified, []⟩
        else .ok ⟨.LoggedIn, cmd, .Forward, []⟩
      | none => .ok ⟨.LoggedIn, cmd, .Forward, []⟩
    else .ok ⟨.LoggedIn, cmd, .Forward, []⟩

/-- handle_client_message from src/proxy.rs. -/
def handle_client_message (state : ConnectionState) (cmd : J)
    (slot_info : Option (Nat × String)) (deathlink_exclusions : List Nat)
    (datapackage_cache : DataPackageCache) (inject_notext : Bool) :
    Except String ClientMsgOut :=
  let cmd_type := get_cmd cmd
  if cmd_type = some "GetDataPackage" then
    match parseGetDataPackage cmd with
    | some request =>
      if request.games ≠ [] then
        .ok ⟨state, cmd, .DropWithRawResponse (datapackage_cache.response_for_games request.games), []⟩
      else if request.exclusions ≠ [] then
        .ok ⟨state, cmd, .DropWithRawResponse (datapackage_cache.response_excluding_games request.exclusions), []⟩
      else
        .ok ⟨state, cmd, .DropWithRawResponse datapackage_cache.full_response, []⟩
    | none => .ok ⟨state, cmd, .Forward, []⟩
  else if cmd_type = some "Bounce" then
    match parseBounced cmd with
    | some bounced =>
      if bounced.tags.contains "DeathLink" then
        match slot_info with
        | some (slot, _) =>
          if deathlink_exclusions.contains slot then
            .ok ⟨state, cmd, .Drop, []⟩
          else
            let source :=
              match (bounced.data.get "source").bind J.asStr with
              | some s => s
              | none => "Unknown"
            let cause := (bounced.data.get "cause").bind J.asStr
            .ok ⟨state, cmd, .DropAndRoute, [.DeathLink slot source cause]⟩
        | none => .ok ⟨state, cmd, .DropAndRoute, []⟩
      else .ok ⟨state, cmd, .DropAndRoute, []⟩
    | none => .ok ⟨state, cmd, .DropAndRoute, []⟩
  else if cmd_type = some "Say" then
    match parseSay cmd with
    | some say =>
      if say.text.utf8ByteSize > MAX_SAY_LENGTH then
        .ok ⟨state, cmd, .DropWithResponse sayTooLongDenial, []⟩
      else if is_command say.text "countdown" then
        match slot_info with
        | some (slot, _) => .ok ⟨state, cmd, .DropWithResponse countdownDenial, [.CountdownInit slot]⟩
        | none => .ok ⟨state, cmd, .DropWithResponse countdownDenial, []⟩
      else clientStateStep state cmd inject_notext
    | none => clientStateStep state cmd inject_notext
  else clientStateStep state cmd inject_notext

/-- ClientResponse from src/registry.rs (the pong payload is irrelevant to
the claims and elided). -/
inductive ClientResponse where
  | Values (values : List J)
  | Raw (raw : String)
  | Pong

/-- ClientHandlerResult from src/proxy.rs. -/
structure ClientHandlerResult where
  modified : Bool
  response : Option ClientResponse
  bounces_to_route : List J
  tag_update : Option (List String)

/-- handle_client_messages from src/proxy.rs: Vec::retain_mut over the
batch. Returns the final state, the retained (possibly mutated) commands,
the aggregate result, and — separately, because they are side effects that
survive a later error — the attempted signal emissions. A later
DropWithResponse overwrites an earlier one, as in the source. -/
def handle_client_messages (state : ConnectionState) (messages : List J)
    (slot_info : Option (Nat × String)) (excl : List Nat) (cache : DataPackageCache)
    (inject_notext : Bool) :
    Except String (ConnectionState × List J × ClientHandlerResult) × List Signal :=
  match messages with
  | [] => (.ok (state, [], ⟨false, none, [], none⟩), [])
  | m :: rest =>
    match handle_client_message state m slot_info excl cache inject_notext with
    | .error e => (.error e, [])
    | .ok out =>
      match handle_client_messages out.state rest slot_info excl cache inject_notext with
      | (.error e, sigs) => (.error e, out.signals ++ sigs)
      | (.ok (st, kept, res), sigs) =>
        match out.decision with
        | .Drop =>
          (.ok (st, kept, { res with modified := true }), out.signals ++ sigs)
        | .DropAndRoute =>
          (.ok (st, kept, { res with modified := true, bounces_to_route := out.cmd :: res.bounces_to_route }),
            out.signals ++ sigs)
        | .DropWithResponse v =>
          let resp := res.response.orElse (fun _ => some (.Values [v]))
          (.ok (st, kept, { res with modified := true, response := resp }), out.signals ++ sigs)
        | .DropWithRawResponse r =>
          let resp := res.response.orElse (fun _ => some (.Raw r))
          (.ok (st, kept, { res with modified := true, response := resp }), out.signals ++ sigs)
        | .Forward =>
          let thisTag : Option (List String) :=
            if get_cmd out.cmd = some "ConnectUpdate" then (parseConnectUpdate out.cmd).map (·.tags)
            else none
          (.ok (st, out.cmd :: kept, { res with tag_update := res.tag_update.orElse (fun _ => thisTag) }),
            out.signals ++ sigs)
        | .Modified =>
          let thisTag : Option (List String) :=
            if get_cmd out.cmd = some "ConnectUpdate" then (parseConnectUpdate out.cmd).map (·.tags)
            else none
          let tagu := res.tag_update.orElse (fun _ => thisTag)
          (.ok (st, out.cmd :: kept, { res with modified := true, tag_update := tagu }), out.signals ++ sigs)
        | .ForwardWithRegistration _ _ => (.error "unreachable", out.signals ++ sigs)
        | .SendConnectionRefused => (.error "unreachable", out.signals ++ sigs)

/-! ## Upstream-to-client processing (src/proxy.rs) -/

/-- The slot-keyed password table (HashMap<SlotId, String>) as an
association list with unique keys. -/
def lookupPw : List (Nat × String) → Nat → Option String
  | [], _ => none
  | (k, v) :: rest, key => if k = key then some v else lookupPw rest key

/-- Substring containment on characters (str::contains with a string
pattern; for ASCII needles byte and character containment coincide). -/
def strContainsAux (pat : List Char) : List Char → Bool
  | [] => pat.isPrefixOf []
  | c :: rest => pat.isPrefixOf (c :: rest) || strContainsAux pat rest

def strContains (s pat : String) : Bool := strContainsAux pat.toList s.toList

/-- The state-machine tail of handle_upstream_message. -/
def upstreamStateStep (state : ConnectionState) (cmd : J)
    (login_info : List (Nat × String)) (inject_notext : Bool) (rk : Nat) :
    Except String (ConnectionState × J × MessageDecision × Nat) :=
  match state with
  | .WaitingForRoomInfo =>
    if get_cmd cmd ≠ some "RoomInfo" then
      .error "Received non RoomInfo as the first upstream message, this is a bug"
    else
      match parseRoomInfo cmd with
      | none => .error "could not parse RoomInfo"
      | some ri =>
        .ok (.WaitingForConnect, roomInfoToJ { ri with password := true }, .Modified, rk)
  | .WaitingForConnect =>
    .ok (state, cmd, .Drop, rk)
  | .WaitingForConnected password tags game =>
    let cmd_type := get_cmd cmd
    if cmd_type = some "Connected" then
      match parseConnected cmd with
      | none => .error "could not parse Connected"
      | some connected =>
        let registration : RegistrationData := ⟨connected.slot, connected.team, game, tags⟩
        let inject_response : Option J :=
          if inject_notext then some (printJsonWithColor "Connected to APX proxy (NoText mode)" "green")
          else none
        match lookupPw login_info connected.slot with
        | some expected =>
          if expected ≠ "" ∧ password ≠ expected then
            .ok (state, cmd, .SendConnectionRefused, rk)
          else
            .ok (.LoggedIn, cmd, .ForwardWithRegistration registration inject_response, rk)
        | none =>
          .ok (.LoggedIn, cmd, .ForwardWithRegistration registration inject_response, rk)
    else if cmd_type = some "ConnectionRefused" then
      .ok (state, cmd, .Forward, rk)
    else
      .error "Expected Connected, ConnectionRefused, or DataPackage, got an unexpected command"
  | .LoggedIn => .ok (state, cmd, .Forward, rk)

/-- handle_upstream_message from src/proxy.rs. The DeathLink probability
filter draws from the roll stream `rolls` at index `rk` (the returned Nat is
the next unused index). -/
def handle_upstream_message (state : ConnectionState) (cmd : J)
    (login_info : List (Nat × String)) (deathlink_exclusions : List Nat)
    (slot_info : Option (Nat × String)) (probability : ℚ) (rolls : Nat → ℚ)
    (rk : Nat) (inject_notext : Bool) :
    Except String (ConnectionState × J × MessageDecision × Nat) :=
  let cmd_type := get_cmd cmd
  if cmd_type = some "Bounced" then
    match parseBounced cmd with
    | some bounced =>
      if bounced.tags.contains "DeathLink" then
        match slot_info with
        | some (slot, _) =>
          if deathlink_exclusions.contains slot then
            .ok (state, cmd, .Drop, rk)
          else if probability < 1 then
            if rolls rk ≥ probability then .ok (state, cmd, .Drop, rk + 1)
            else upstreamStateStep state cmd login_info inject_notext (rk + 1)
          else upstreamStateStep state cmd login_info inject_notext rk
        | none => upstreamStateStep state cmd login_info inject_notext rk
      else upstreamStateStep state cmd login_info inject_notext rk
    | none => upstreamStateStep state cmd login_info inject_notext rk
  else if cmd_type = some "PrintJSON" then
    match parsePrintJSON cmd with
    | some pj =>
      match pj.type_ with
      | some ty =>
        if ty = "Join" then
          if pj.tags.contains "Admin" then .ok (state, cmd, .Drop, rk)
          else upstreamStateStep state cmd login_info inject_notext rk
        else if ty = "Part" then
          let text := String.join (pj.data.map (·.text))
          if strContains text "'Admin'" then .ok (state, cmd, .Drop, rk)
          else upstreamStateStep state cmd login_info inject_notext rk
        else if ty = "ItemCheat" then .ok (state, cmd, .Drop, rk)
        else upstreamStateStep state cmd login_info inject_notext rk
      | none =>
        if pj.data.any (fun part => strContains part.text "Cheat console") then
          .ok (state, cmd, .Drop, rk)
        else upstreamStateStep state cmd login_info inject_notext rk
    | none => upstreamStateStep state cmd login_info inject_notext rk
  else upstreamStateStep state cmd login_info inject_notext rk

/-- UpstreamResult from src/proxy.rs. -/
inductive UpstreamResult where
  | Continue (modified : Bool) (inject_response : Option J) (registration : Option RegistrationData)
  | SendConnectionRefused

/-- handle_upstream_messages from src/proxy.rs: retain_mut over the batch;
a SendConnectionRefused stops processing and drops the remaining commands,
and a later registration or injected response overwrites an earlier one. -/
def handle_upstream_messages (state : ConnectionState) (messages : List J)
    (login_info : List (Nat × String)) (deathlink_exclusions : List Nat)
    (slot_info : Option (Nat × String)) (probability : ℚ) (rolls : Nat → ℚ)
    (rk : Nat) (inject_notext : Bool) :
    Except String (ConnectionState × List J × UpstreamResult × Nat) :=
  match messages with
  | [] => .ok (state, [], .Continue false none none, rk)
  | m :: rest =>
    match handle_upstream_message state m login_info deathlink_exclusions slot_info
        probability rolls rk inject_notext with
    | .error e => .error e
    | .ok (st1, cmd1, decision, rk1) =>
      match decision with
      | .SendConnectionRefused => .ok (st1, [], .SendConnectionRefused, rk1)
      | .DropWithResponse _ => .error "unreachable"
      | .DropWithRawResponse _ => .error "unreachable"
      | .DropAndRoute => .error "unreachable"
      | _ =>
        let thisKept : List J :=
          match decision with
          | .Forward => [cmd1]
          | .ForwardWithRegistration _ _ => [cmd1]
          | .Modified => [cmd1]
          | _ => []
        let thisMod : Bool :=
          match decision with
          | .Drop => true
          | .Modified => true
          | _ => false
        let thisInj : Option J :=
          match decision with
          | .ForwardWithRegistration _ resp => resp
          | _ => none
        let thisReg : Option RegistrationData :=
          match decision with
          | .ForwardWithRegistration reg _ => some reg
          | _ => none
        match handle_upstream_messages st1 rest login_info deathlink_exclusions slot_info
            probability rolls rk1 inject_notext with
        | .error e => .error e
        | .ok (st2, kept, .SendConnectionRefused, rk2) =>
          .ok (st2, thisKept ++ kept, .SendConnectionRefused, rk2)
        | .ok (st2, kept, .Continue m2 inj2 reg2, rk2) =>
          .ok (st2, thisKept ++ kept,
            .Continue (thisMod || m2) (inj2.orElse fun _ => thisInj) (reg2.orElse fun _ => thisReg), rk2)

/-- The slot-info extraction loop at the top of the upstream reader: the
first Connected command that parses caches (slot, player name). -/
def extractSlotInfo : List J → Option (Nat × String)
  | [] => none
  | cmd :: rest =>
    if get_cmd cmd = some "Connected" then
      match parseConnected cmd with
      | some c =>
        let name :=
          match c.players.find? (fun p => p.slot = c.slot) with
          | some p => p.name
          | none => "Unknown-" ++ toString c.slot
        some (c.slot, name)
      | none => extractSlotInfo rest
    else extractSlotInfo rest

/-- What the upstream reader does with one parsed upstream frame: either the
connection closes, or a (possibly empty) command list is sent to the client
together with the new state, the updated slot info, and an optional
registration. An empty toClient list means no frame is written. -/
inductive UpstreamFrameOutcome where
  | close
  | send (state : ConnectionState) (slot_info : Option (Nat × String)) (toClient : List J)
      (registration : Option RegistrationData) (rk : Nat)

/-- The upstream_to_client step for one text frame (src/proxy.rs): extract
slot info, run the batch through handle_upstream_messages, then either send
the synthesized ConnectionRefused and revert the state, or append the
injected response and forward the retained commands. -/
def processUpstreamFrame (state : ConnectionState) (slot_info : Option (Nat × String))
    (login_info : List (Nat × String)) (deathlink_exclusions : List Nat)
    (probability : ℚ) (rolls : Nat → ℚ) (rk : Nat) (inject_notext : Bool)
    (messages : List J) : UpstreamFrameOutcome :=
  let si :=
    match extractSlotInfo messages with
    | some x => some x
    | none => slot_info
  match handle_upstream_messages state messages login_info deathlink_exclusions si
      probability rolls rk inject_notext with
  | .error _ => .close
  | .ok (_, _, .SendConnectionRefused, rkr) =>
    .send .WaitingForConnect si [connectionRefusedJ] none rkr
  | .ok (stf, kept, .Continue _ injr reg, rkf) =>
    let toClient :=
      match injr with
      | some r => kept ++ [r]
      | none => kept
    .send stf si toClient reg rkf

/-! ## Client registry and bounce routing (src/registry.rs) -/

/-- ClientEntry from src/registry.rs (the response channel is represented
by the delivery lists route_bounce returns). -/
structure ClientEntryM where
  slot : Nat
  team : Nat
  game : String
  tags : List String

/-- The registry map (HashMap<ClientId, ClientEntry>) as an association
list with unique keys; iteration order is the list order (a HashMap
iterates in unspecified order). -/
def lookupClient : List (Nat × ClientEntryM) → Nat → Option ClientEntryM
  | [], _ => none
  | (k, v) :: rest, key => if k = key then some v else lookupClient rest key

/-- The typed view of a Bounce that route_bounce parses. Modelled from the
spec: aprs_proto::client::Bounce is an external crate; per the spec the view
carries "target slot list, target team list, target game list, target tags
list — any of which may be empty meaning unrestricted on that axis". -/
structure BounceView where
  cmd : String
  games : List String
  slots : List Nat
  teams : List Nat
  tags : List String

def natListOfJ (v : J) : Option (List Nat) := do
  let xs ← v.asArr
  xs.mapM J.asU32

def parseBounceView (j : J) : Option BounceView := do
  let cmd ← j.get "cmd" >>= J.asStr
  let games ← optField j "games" strListOfJ []
  let slots ← optField j "slots" natListOfJ []
  let teams ← optField j "teams" natListOfJ []
  let tags ← optField j "tags" strListOfJ []
  pure ⟨cmd, games, slots, teams, tags⟩

/-- bounce_matches. Modelled from the spec: aprs_server_core is an external
crate; per the spec a client matches iff every non-empty filter axis admits
it, "with the team interpretation taken from the sender's team". The claims
proved below hold for any matcher, so only the empty-filter case (match
everything) is load-bearing. -/
def bounce_matches (b : BounceView) (_sender_team : Nat) (c : ClientEntryM) : Bool :=
  (b.slots.isEmpty || b.slots.contains c.slot) &&
  (b.teams.isEmpty || b.teams.contains c.team) &&
  (b.games.isEmpty || b.games.contains c.game) &&
  (b.tags.isEmpty || b.tags.any (fun t => c.tags.contains t))

/-- The per-client delivery loop of route_bounce. Returns the attempted
try_sends as (client id, send succeeded) pairs — a successful send is a
delivered Bounced and one recorded metric — plus the next roll index. -/
def routeBounceGo (bounce : BounceView) (is_deathlink : Bool) (sender_team : Nat)
    (exclusions : List Nat) (probability : ℚ) (rolls : Nat → ℚ) (sendOk : Nat → Bool) :
    List (Nat × ClientEntryM) → Nat → List (Nat × Bool) × Nat
  | [], rk => ([], rk)
  | (id, c) :: rest, rk =>
    if ¬ bounce_matches bounce sender_team c then
      routeBounceGo bounce is_deathlink sender_team exclusions probability rolls sendOk rest rk
    else if is_deathlink ∧ exclusions.contains c.slot then
      routeBounceGo bounce is_deathlink sender_team exclusions probability rolls sendOk rest rk
    else if is_deathlink ∧ probability < 1 then
      if rolls rk ≥ probability then
        routeBounceGo bounce is_deathlink sender_team exclusions probability rolls sendOk rest (rk + 1)
      else
        let (ds, rkr) := routeBounceGo bounce is_deathlink sender_team exclusions probability rolls sendOk rest (rk + 1)
        ((id, sendOk id) :: ds, rkr)
    else
      let (ds, rkr) := routeBounceGo bounce is_deathlink sender_team exclusions probability rolls sendOk rest rk
      ((id, sendOk id) :: ds, rkr)

/-- route_bounce from src/registry.rs: parse the typed view, relabel cmd to
Bounced (the serialized payload, which every recipient shares, is the
relabelled value), look up the sender, then fan out with the DeathLink
exclusion and probability filters. An unparseable bounce or an unregistered
sender delivers to nobody and records no metric. -/
def route_bounce (clients : List (Nat × ClientEntryM)) (sender_id : Nat) (bounce_value : J)
    (deathlink_exclusions : List Nat) (probability : ℚ) (rolls : Nat → ℚ) (rk : Nat)
    (sendOk : Nat → Bool) : List (Nat × Bool) × Nat :=
  match parseBounceView bounce_value with
  | none => ([], rk)
  | some bounce =>
    let is_deathlink := bounce.tags.contains "DeathLink"
    let _bounced := bounce_value.setField "cmd" (J.str "Bounced")
    match lookupClient clients sender_id with
    | none => ([], rk)
    | some sender =>
      routeBounceGo bounce is_deathlink sender.team deathlink_exclusions probability rolls sendOk clients rk

/-- The successful deliveries recorded in the Bounced/upstream_to_client
metric bucket. -/
def bounceMetrics (attempts : List (Nat × Bool)) : List Nat :=
  (attempts.filter (·.2)).map (·.1)

/-- The client_to_upstream driver loop around the bounce list: each routed
bounce is passed to route_bounce with the connection's client id. -/
def routeAllBounces (clients : List (Nat × ClientEntryM)) (sender_id : Nat)
    (exclusions : List Nat) (probability : ℚ) (rolls : Nat → ℚ) (sendOk : Nat → Bool) :
    List J → Nat → List (Nat × Bool) × Nat
  | [], rk => ([], rk)
  | b :: rest, rk =>
    let (ds, rkr) := route_bounce clients sender_id b exclusions probability rolls rk sendOk
    let (ds2, rkf) := routeAllBounces clients sender_id exclusions probability rolls sendOk rest rkr
    (ds ++ ds2, rkf)

/-- What the client_to_upstream reader does with one parsed client frame:
either the connection closes (after the listed signal emissions), or the
retained commands go upstream, at most one synthesized response goes back to
the client, the routed bounces produce delivery attempts, and the registry
tag set is possibly replaced. An empty toUpstream list means no upstream
frame is written. -/
inductive ClientFrameOutcome where
  | close (signals : List Signal)
  | cont (state : ConnectionState) (toUpstream : List J) (response : Option ClientResponse)
      (bounceAttempts : List (Nat × Bool)) (tagUpdate : Option (List String))
      (signals : List Signal) (rk : Nat)

/-- The client_to_upstream step for one text frame (src/proxy.rs). -/
def processClientFrame (state : ConnectionState) (messages : List J)
    (slot_info : Option (Nat × String)) (excl : List Nat) (cache : DataPackageCache)
    (inject_notext : Bool) (clients : List (Nat × ClientEntryM)) (client_id : Nat)
    (probability : ℚ) (rolls : Nat → ℚ) (rk : Nat) (sendOk : Nat → Bool) :
    ClientFrameOutcome :=
  match handle_client_messages state messages slot_info excl cache inject_notext with
  | (.error _, sigs) => .close sigs
  | (.ok (st, kept, res), sigs) =>
    let (attempts, rkf) := routeAllBounces clients client_id excl probability rolls sendOk
      res.bounces_to_route rk
    .cont st kept res.response attempts res.tag_update sigs rkf


/-! ## Concrete inputs used by witnesses and counterexamples -/

/-- A concrete DataPackage cache whose three operations are
distinguishable. -/
def cacheW : DataPackageCache :=
  ⟨"FULL", fun gs => "FOR:" ++ String.intercalate "," gs,
    fun gs => "EXCL:" ++ String.intercalate "," gs⟩

def connectW : J :=
  .obj [("cmd", .str "Connect"), ("password", .str "secret"), ("name", .str "p"),
        ("tags", .arr []), ("game", .str "G")]

def gdpGamesW : J := .obj [("cmd", .str "GetDataPackage"), ("games", .arr [.str "A"])]

/-- A GetDataPackage whose games field is not an array of strings, so the
typed parse fails. -/
def gdpBadW : J := .obj [("cmd", .str "GetDataPackage"), ("games", .num (.int 5))]

def sayCountdownW : J := .obj [("cmd", .str "Say"), ("text", .str "!countdown")]

/-- A Connected for slot 3 as in spec scenario 2. -/
def connectedW : J :=
  .obj [("cmd", .str "Connected"), ("team", .num (.int 0)), ("slot", .num (.int 3)),
        ("players", .arr [.obj [("team", .num (.int 0)), ("slot", .num (.int 3)),
          ("alias", .str "p"), ("name", .str "p")]]),
        ("missing_locations", .arr []), ("checked_locations", .arr []),
        ("slot_info", .obj [])]

def dataPackageCmdW : J := .obj [("cmd", .str "DataPackage")]

/-- A DeathLink Bounce lacking the data field: crate::proto::Bounced
requires data, so the sender-side typed parse fails. -/
def bounceNoDataW : J := .obj [("cmd", .str "Bounce"), ("tags", .arr [.str "DeathLink"])]

def bounceDataW : J :=
  .obj [("cmd", .str "Bounce"), ("tags", .arr [.str "DeathLink"]), ("data", .obj [])]

/-- A registry with the sender (client id 0, slot 5) and one other
DeathLink-tagged client (id 1, slot 7). -/
def regW : List (Nat × ClientEntryM) :=
  [(0, ⟨5, 0, "G", ["DeathLink"]⟩), (1, ⟨7, 0, "G", ["DeathLink"]⟩)]

/-- A Bounce (with data) as received during WaitingForRoomInfo. -/
def bounceWfriW : J := .obj [("cmd", .str "Bounce"), ("data", .obj [])]

/-- 667 euro signs: 667 characters, 2001 UTF-8 bytes. -/
def c9Text : String := String.mk (List.replicate 667 '€')

def c9SayW : J := .obj [("cmd", .str "Say"), ("text", .str c9Text)]

/-- 2001 ASCII characters (2001 bytes). -/
def c9LongAscii : String := String.mk (List.replicate 2001 'a')

def c9SayAsciiW : J := .obj [("cmd", .str "Say"), ("text", .str c9LongAscii)]

/-- The condition under which a Say is intercepted before the state match:
it parses and is either oversized or a !countdown chat command. -/
def sayIntercepted (cmd : J) : Bool :=
  get_cmd cmd == some "Say" &&
  (match parseSay cmd with
   | some say => decide (say.text.utf8ByteSize > MAX_SAY_LENGTH) || is_command say.text "countdown"
   | none => false)

/-! ## Helper lemmas -/

theorem jlookup_cons (k1 : String) (v1 : J) (l : List (String × J)) (key : String) :
    jlookup ((k1, v1) :: l) key = if k1 = key then some v1 else jlookup l key := rfl

theorem jlookup_replace_self (fields : List (String × J)) (k : String) (v : J)
    (h : fields.any (fun p => p.1 = k) = true) :
    jlookup (fields.map (fun p => if p.1 = k then (k, v) else p)) k = some v := by
  induction fields with
  | nil => simp at h
  | cons hd tl ih =>
    rcases hd with ⟨k1, v1⟩
    simp only [List.map_cons]
    by_cases hk : k1 = k
    · rw [if_pos (by simpa using hk), jlookup_cons, if_pos rfl]
    · have h2 : tl.any (fun p => p.1 = k) = true := by
        simp only [List.any_cons, Bool.or_eq_true, decide_eq_true_eq] at h
        rcases h with h | h
        · exact absurd h hk
        · exact h
      rw [if_neg (by simpa using hk), jlookup_cons, if_neg hk]
      exact ih h2

theorem jlookup_append_absent (fields : List (String × J)) (k : String) (v : J)
    (h : fields.any (fun p => p.1 = k) = false) :
    jlookup (fields ++ [(k, v)]) k = some v := by
  induction fields with
  | nil => simp [jlookup]
  | cons hd tl ih =>
    rcases hd with ⟨k1, v1⟩
    simp only [List.any_cons, Bool.or_eq_false_iff, decide_eq_false_iff_not] at h
    rw [List.cons_append, jlookup_cons, if_neg h.1]
    exact ih h.2

theorem setField_get_self (fields : List (String × J)) (k : String) (v : J) :
    ((J.obj fields).setField k v).get k = some v := by
  unfold J.setField objInsertDedup
  by_cases h : fields.any (fun p => p.1 = k) = true
  · simp only [h, if_true, J.get]
    exact jlookup_replace_self fields k v h
  · simp only [Bool.not_eq_true] at h
    simp only [h, Bool.false_eq_true, if_false, J.get]
    exact jlookup_append_absent fields k v h

theorem jlookup_map_pushNoText (l : List (String × J)) (key : String) (hk : key ≠ "tags") :
    jlookup (l.map fun p => if p.1 = "tags" then (p.1, pushNoText p.2) else p) key =
      jlookup l key := by
  induction l with
  | nil => simp [jlookup]
  | cons hd tl ih =>
    rcases hd with ⟨k1, v1⟩
    simp only [List.map_cons]
    by_cases ht : k1 = "tags"
    · have hne : ¬ k1 = key := fun e => hk (e ▸ ht)
      rw [if_pos (by simpa using ht), jlookup_cons, jlookup_cons, if_neg hne, if_neg hne]
      exact ih
    · rw [if_neg (by simpa using ht), jlookup_cons, jlookup_cons]
      by_cases hkey : k1 = key
      · rw [if_pos hkey, if_pos hkey]
      · rw [if_neg hkey, if_neg hkey]
        exact ih

theorem jlookup_append_tags (l : List (String × J)) (x : J) (key : String) (hk : key ≠ "tags") :
    jlookup (l ++ [("tags", x)]) key = jlookup l key := by
  induction l with
  | nil =>
    simp only [List.nil_append, jlookup_cons, jlookup]
    rw [if_neg (fun e => hk (Eq.symm e))]
  | cons hd tl ih =>
    rcases hd with ⟨k1, v1⟩
    rw [List.cons_append, jlookup_cons, jlookup_cons]
    by_cases hkey : k1 = key
    · rw [if_pos hkey, if_pos hkey]
    · rw [if_neg hkey, if_neg hkey]
      exact ih

theorem injectNoText_get_ne (fields : List (String × J)) (key : String) (hk : key ≠ "tags") :
    (injectNoTextConnect (J.obj fields)).get key = (J.obj fields).get key := by
  unfold injectNoTextConnect
  by_cases h : fields.any (fun p => p.1 = "tags") = true
  · simp only [h, if_true, J.get]
    exact jlookup_map_pushNoText fields key hk
  · simp only [Bool.not_eq_true] at h
    simp only [h, Bool.false_eq_true, if_false, J.get]
    rw [jlookup_map_pushNoText _ key hk, jlookup_append_tags _ _ _ hk]

theorem utf8ByteSize_replicate (n : Nat) (c : Char) :
    (String.mk (List.replicate n c)).utf8ByteSize = n * c.utf8Size := by
  induction n with
  | zero => simp [String.utf8ByteSize, String.utf8ByteSize.go, List.replicate]
  | succ k ih =>
    simp only [List.replicate_succ, String.utf8ByteSize, String.utf8ByteSize.go] at ih ⊢
    rw [ih]
    ring

theorem length_mk_replicate (n : Nat) (c : Char) :
    (String.mk (List.replicate n c)).length = n := by
  simp [String.length]

/-- clientStateStep never answers the client directly. -/
theorem clientStateStep_no_response (st : ConnectionState) (cmd : J) (inj : Bool)
    (out : ClientMsgOut) (h : clientStateStep st cmd inj = .ok out) :
    ∀ v, out.decision ≠ .DropWithResponse v := by
  intro v
  cases st <;> simp only [clientStateStep] at h <;> repeat' split at h
  all_goals
    first
    | exact Except.noConfusion h
    | (simp only [Except.ok.injEq] at h; subst h; simp)

theorem countdown_ne_too_long : countdownDenial ≠ sayTooLongDenial := by
  simp [countdownDenial, sayTooLongDenial, printJsonWithColor]

/-- A too-long Say in a singleton frame: dropped with the denial, no signal
(shared by the C9 theorem and counterexample). -/
theorem sayTooLongFrame (st : ConnectionState) (cmd : J) (say : Say)
    (slot_info : Option (Nat × String)) (excl : List Nat) (cache : DataPackageCache)
    (inj : Bool) (clients : List (Nat × ClientEntryM)) (cid : Nat) (prob : ℚ)
    (rolls : Nat → ℚ) (rk : Nat) (sendOk : Nat → Bool)
    (hcmd : get_cmd cmd = some "Say") (hp : parseSay cmd = some say)
    (hlen : say.text.utf8ByteSize > MAX_SAY_LENGTH) :
    processClientFrame st [cmd] slot_info excl cache inj clients cid prob rolls rk sendOk =
      .cont st [] (some (.Values [sayTooLongDenial])) [] none [] rk := by
  simp [processClientFrame, handle_client_messages, handle_client_message, hcmd, hp,
    hlen, routeAllBounces, Option.orElse]

/-- Attempted DeathLink deliveries only target rows whose slot is outside
the exclusion set (shared by C6). -/
theorem routeBounceGo_excluded_skipped (bounce : BounceView) (steam : Nat)
    (excl : List Nat) (prob : ℚ) (rolls : Nat → ℚ) (sendOk : Nat → Bool) :
    ∀ (cs : List (Nat × ClientEntryM)) (rk : Nat) (pr : Nat × Bool),
      pr ∈ (routeBounceGo bounce true steam excl prob rolls sendOk cs rk).1 →
      ∃ c, (pr.1, c) ∈ cs ∧ excl.contains c.slot = false := by
  intro cs
  induction cs with
  | nil => intro rk pr h; simp [routeBounceGo] at h
  | cons hd rest ih =>
    rcases hd with ⟨id, c⟩
    intro rk pr h
    simp only [routeBounceGo] at h
    by_cases h1 : bounce_matches bounce steam c = true
    · rw [if_neg (not_not_intro h1)] at h
      by_cases h2 : excl.contains c.slot = true
      · rw [if_pos (by exact ⟨trivial, h2⟩)] at h
        obtain ⟨c2, hm, he⟩ := ih rk pr h
        exact ⟨c2, List.mem_cons_of_mem _ hm, he⟩
      · rw [if_neg (by exact fun hcon => h2 hcon.2)] at h
        have hcslot : excl.contains c.slot = false := by
          simpa using h2
        by_cases h3 : prob < 1
        · rw [if_pos (by exact ⟨trivial, h3⟩)] at h
          by_cases h4 : rolls rk ≥ prob
          · rw [if_pos h4] at h
            obtain ⟨c2, hm, he⟩ := ih (rk + 1) pr h
            exact ⟨c2, List.mem_cons_of_mem _ hm, he⟩
          · rw [if_neg h4] at h
            simp only [List.mem_cons] at h
            rcases h with h | h
            · exact ⟨c, by simp [h], hcslot⟩
            · obtain ⟨c2, hm, he⟩ := ih (rk + 1) pr h
              exact ⟨c2, List.mem_cons_of_mem _ hm, he⟩
        · rw [if_neg (by exact fun hcon => h3 hcon.2)] at h
          simp only [List.mem_cons] at h
          rcases h with h | h
          · exact ⟨c, by simp [h], hcslot⟩
          · obtain ⟨c2, hm, he⟩ := ih rk pr h
            exact ⟨c2, List.mem_cons_of_mem _ hm, he⟩
    · rw [if_pos h1] at h
      obtain ⟨c2, hm, he⟩ := ih rk pr h
      exact ⟨c2, List.mem_cons_of_mem _ hm, he⟩

/-! ## Claim theorems -/

/-- C1: every client Connect processed in WaitingForConnect is forwarded
with its password field set to the empty string, and the original password,
the post-injection tags, and the game are captured in the new
WaitingForConnected state. -/
theorem C1_connect_blanks_password (cmd : J) (slot_info : Option (Nat × String))
    (excl : List Nat) (cache : DataPackageCache) (inject_notext : Bool)
    (h : get_cmd cmd = some "Connect") :
    ∃ cmd2, handle_client_message .WaitingForConnect cmd slot_info excl cache inject_notext =
        .ok ⟨.WaitingForConnected (jStrD cmd "password") (jTags cmd2) (jStrD cmd "game"),
          cmd2, .Modified, []⟩ ∧
      cmd2.get "password" = some (.str "") := by
  obtain ⟨fields, rfl⟩ : ∃ fs, cmd = .obj fs := by
    cases cmd <;> simp [get_cmd, J.get] at h ⊢
  simp only [handle_client_message, clientStateStep, h, Option.some.injEq, String.reduceEq,
    reduceIte, ne_eq, not_true_eq_false, not_false_eq_true]
  refine ⟨_, rfl, ?_⟩
  by_cases hin : inject_notext
  · simp only [hin, if_true]
    rw [show (J.obj fields).setField "password" (J.str "") =
        J.obj (objInsertDedup fields "password" (J.str "")) from rfl]
    rw [injectNoText_get_ne _ _ (by decide)]
    rw [show J.obj (objInsertDedup fields "password" (J.str "")) =
        (J.obj fields).setField "password" (J.str "") from rfl]
    exact setField_get_self fields _ _
  · simp only [hin, Bool.false_eq_true, if_false]
    exact setField_get_self fields _ _

/-- C1 witness: the theorem applied to a concrete Connect. -/
theorem C1_connect_blanks_password_witness :
    get_cmd connectW = some "Connect" ∧
    ∃ cmd2, handle_client_message .WaitingForConnect connectW none [] cacheW true =
        .ok ⟨.WaitingForConnected (jStrD connectW "password") (jTags cmd2) (jStrD connectW "game"),
          cmd2, .Modified, []⟩ ∧
      cmd2.get "password" = some (.str "") :=
  ⟨by rfl, C1_connect_blanks_password connectW none [] cacheW true (by rfl)⟩

/-- C2: an upstream Connected during WaitingForConnected whose slot has a
non-empty expected password different from the captured one makes the proxy
send exactly [ConnectionRefused InvalidPassword] to the client, revert to
WaitingForConnect, drop the rest of the upstream batch, and register
nobody. -/
theorem C2_wrong_password_refused (p : String) (tags : List String) (game : String)
    (slot_info : Option (Nat × String)) (table : List (Nat × String)) (excl : List Nat)
    (prob : ℚ) (rolls : Nat → ℚ) (rk : Nat) (inject_notext : Bool) (cmd : J)
    (c : ConnectedMsg) (expected : String) (rest : List J)
    (hcmd : get_cmd cmd = some "Connected")
    (hparse : parseConnected cmd = some c)
    (hpw : lookupPw table c.slot = some expected)
    (hne : expected ≠ "") (hdiff : p ≠ expected) :
    ∃ si rk2, processUpstreamFrame (.WaitingForConnected p tags game) slot_info table excl
        prob rolls rk inject_notext (cmd :: rest) =
      .send .WaitingForConnect si [connectionRefusedJ] none rk2 := by
  simp only [processUpstreamFrame, extractSlotInfo, handle_upstream_messages,
    handle_upstream_message, upstreamStateStep, hcmd, hparse, hpw, Option.some.injEq,
    String.reduceEq, reduceIte, ne_eq, not_true_eq_false, not_false_eq_true, hne, hdiff,
    and_self, not_false_iff]
  exact ⟨_, _, rfl⟩

/-- C2 witness: spec scenario 2 (slot 3 expects "secret", captured password
"wrong"), with a trailing junk command that gets dropped. -/
theorem C2_wrong_password_refused_witness :
    ∃ si rk2, processUpstreamFrame (.WaitingForConnected "wrong" [] "G") none [(3, "secret")] []
        1 (fun _ => 0) 0 false [connectedW, .obj [("cmd", .str "Junk")]] =
      .send .WaitingForConnect si [connectionRefusedJ] none rk2 :=
  C2_wrong_password_refused "wrong" [] "G" none [(3, "secret")] [] 1 (fun _ => 0) 0 false
    connectedW ⟨"Connected", 0, 3, [⟨0, 3, "p", "p"⟩], [], [], none, [], none⟩ "secret"
    [.obj [("cmd", .str "Junk")]] (by rfl) (by rfl) (by rfl) (by decide) (by decide)

/-- C3 counterexample: a GetDataPackage whose games field is not an array of
strings fails the typed parse and is forwarded upstream unchanged, with no
cached response to the client — the claim says it is never forwarded. -/
theorem C3_unparseable_request_forwarded :
    processClientFrame .LoggedIn [gdpBadW] none [] cacheW false [] 0 1 (fun _ => 0) 0
        (fun _ => true) =
      .cont .LoggedIn [gdpBadW] none [] none [] 0 := by rfl

/-- C3 amended: a GetDataPackage that parses is, in any state, dropped from
the upstream batch and answered from the cache with the games projection,
else the exclusions projection, else the full response. -/
theorem C3_datapackage_from_cache (st : ConnectionState) (cmd : J) (req : GetDataPackage)
    (slot_info : Option (Nat × String)) (excl : List Nat) (cache : DataPackageCache)
    (inj : Bool) (clients : List (Nat × ClientEntryM)) (cid : Nat) (prob : ℚ)
    (rolls : Nat → ℚ) (rk : Nat) (sendOk : Nat → Bool)
    (hcmd : get_cmd cmd = some "GetDataPackage")
    (hp : parseGetDataPackage cmd = some req) :
    processClientFrame st [cmd] slot_info excl cache inj clients cid prob rolls rk sendOk =
      .cont st []
        (some (.Raw (if req.games ≠ [] then cache.response_for_games req.games
          else if req.exclusions ≠ [] then cache.response_excluding_games req.exclusions
          else cache.full_response))) [] none [] rk := by
  by_cases hg : req.games = []
  · by_cases he : req.exclusions = []
    · simp [processClientFrame, handle_client_messages, handle_client_message, hcmd, hp,
        hg, he, routeAllBounces, Option.orElse]
    · simp [processClientFrame, handle_client_messages, handle_client_message, hcmd, hp,
        hg, he, routeAllBounces, Option.orElse]
  · simp [processClientFrame, handle_client_messages, handle_client_message, hcmd, hp,
      hg, routeAllBounces, Option.orElse]

/-- C3 witness: a cached games projection served for a concrete request. -/
theorem C3_datapackage_from_cache_witness :
    processClientFrame .LoggedIn [gdpGamesW] none [] cacheW false [] 0 1 (fun _ => 0) 0
        (fun _ => true) =
      .cont .LoggedIn []
        (some (.Raw (if (["A"] : List String) ≠ [] then cacheW.response_for_games ["A"]
          else if ([] : List String) ≠ [] then cacheW.response_excluding_games []
          else cacheW.full_response))) [] none [] 0 :=
  C3_datapackage_from_cache .LoggedIn gdpGamesW ⟨"GetDataPackage", ["A"], []⟩ none [] cacheW
    false [] 0 1 (fun _ => 0) 0 (fun _ => true) (by rfl) (by rfl)

/-- C4: in WaitingForConnected an upstream DataPackage command falls into
the catch-all bail and terminates the connection, although the bail message
itself names DataPackage as expected — the code contradicts the claim (and
its own error text). -/
theorem C4_datapackage_terminates :
    handle_upstream_message (.WaitingForConnected "p" [] "G") dataPackageCmdW [] [] none 1
        (fun _ => 0) 0 false =
      .error "Expected Connected, ConnectionRefused, or DataPackage, got an unexpected command" := by
  rfl

/-- C5 counterexample: before slot info exists (here: WaitingForConnect), a
!countdown Say is dropped and denied but zero CountdownInit signals are
emitted — the claim promises exactly one. -/
theorem C5_countdown_no_signal_without_slot :
    processClientFrame .WaitingForConnect [sayCountdownW] none [] cacheW false [] 0 1
        (fun _ => 0) 0 (fun _ => true) =
      .cont .WaitingForConnect [] (some (.Values [countdownDenial])) [] none [] 0 := by rfl

/-- C5 amended: a Say whose text is a !countdown chat command (and within
the length bound), sent while slot info is known, never reaches upstream,
is answered with the red denial, and emits exactly one CountdownInit with
that slot. -/
theorem C5_countdown_intercepted (st : ConnectionState) (cmd : J) (say : Say) (slot : Nat)
    (name : String) (excl : List Nat) (cache : DataPackageCache) (inj : Bool)
    (clients : List (Nat × ClientEntryM)) (cid : Nat) (prob : ℚ) (rolls : Nat → ℚ)
    (rk : Nat) (sendOk : Nat → Bool)
    (hcmd : get_cmd cmd = some "Say") (hp : parseSay cmd = some say)
    (hlen : ¬ say.text.utf8ByteSize > MAX_SAY_LENGTH)
    (hcd : is_command say.text "countdown" = true) :
    processClientFrame st [cmd] (some (slot, name)) excl cache inj clients cid prob rolls rk
        sendOk =
      .cont st [] (some (.Values [countdownDenial])) [] none [.CountdownInit slot] rk := by
  simp [processClientFrame, handle_client_messages, handle_client_message, hcmd, hp, hlen,
    hcd, routeAllBounces, Option.orElse]

/-- C5 witness: the theorem applied to a literal !countdown Say at slot 3. -/
theorem C5_countdown_intercepted_witness :
    processClientFrame .LoggedIn [sayCountdownW] (some (3, "p")) [] cacheW false [] 0 1
        (fun _ => 0) 0 (fun _ => true) =
      .cont .LoggedIn [] (some (.Values [countdownDenial])) [] none [.CountdownInit 3] 0 :=
  C5_countdown_intercepted .LoggedIn sayCountdownW ⟨"Say", "!countdown"⟩ 3 "p" [] cacheW
    false [] 0 1 (fun _ => 0) 0 (fun _ => true) (by rfl) (by rfl) (by decide) (by rfl)

/-- C6 counterexample: a DeathLink Bounce without a data field from the
excluded slot 5 fails the sender-side typed parse, bypasses the sender
exclusion check, and is delivered to client 1 (slot 7) — the claim promises
zero recipients when the sender is excluded. -/
theorem C6_excluded_sender_still_delivered :
    handle_client_message .LoggedIn bounceNoDataW (some (5, "p")) [5] cacheW false =
        .ok ⟨.LoggedIn, bounceNoDataW, .DropAndRoute, []⟩ ∧
    processClientFrame .LoggedIn [bounceNoDataW] (some (5, "p")) [5] cacheW false regW 0 1
        (fun _ => 0) 0 (fun _ => true) =
      .cont .LoggedIn [] none [(1, true)] none [] 0 :=
  ⟨by rfl, by rfl⟩

/-- C6 amended: a DeathLink Bounce that parses as the proxy's Bounced type
is dropped before routing when the sender's slot is excluded (zero
recipients); independently, every attempted DeathLink delivery goes to a
registry row whose slot is outside the exclusion set. -/
theorem C6_deathlink_exclusions :
    (∀ (st : ConnectionState) (cmd : J) (b : Bounced) (slot : Nat) (name : String)
        (excl : List Nat) (cache : DataPackageCache) (inj : Bool),
      get_cmd cmd = some "Bounce" → parseBounced cmd = some b →
      b.tags.contains "DeathLink" = true → excl.contains slot = true →
      handle_client_message st cmd (some (slot, name)) excl cache inj =
        .ok ⟨st, cmd, .Drop, []⟩) ∧
    (∀ (clients : List (Nat × ClientEntryM)) (sender_id : Nat) (bounce : J)
        (bv : BounceView) (excl : List Nat) (prob : ℚ) (rolls : Nat → ℚ) (rk : Nat)
        (sendOk : Nat → Bool) (pr : Nat × Bool),
      parseBounceView bounce = some bv → bv.tags.contains "DeathLink" = true →
      pr ∈ (route_bounce clients sender_id bounce excl prob rolls rk sendOk).1 →
      ∃ c, (pr.1, c) ∈ clients ∧ excl.contains c.slot = false) := by
  constructor
  · intro st cmd b slot name excl cache inj hcmd hp htag hexcl
    have htag2 : "DeathLink" ∈ b.tags := by simpa using htag
    have hexcl2 : slot ∈ excl := by simpa using hexcl
    simp [handle_client_message, hcmd, hp, htag2, hexcl2]
  · intro clients sender_id bounce bv excl prob rolls rk sendOk pr hpv htag hmem
    rw [route_bounce, hpv] at hmem
    simp only [htag] at hmem
    cases hs : lookupClient clients sender_id with
    | none => rw [hs] at hmem; simp at hmem
    | some sender =>
      rw [hs] at hmem
      exact routeBounceGo_excluded_skipped bv sender.team excl prob rolls sendOk clients rk pr hmem

/-- C6 witness: both conjuncts applied to the DeathLink Bounce with data
from excluded slot 5, and to a delivery produced by the concrete registry. -/
theorem C6_deathlink_exclusions_witness :
    (handle_client_message .LoggedIn bounceDataW (some (5, "p")) [5] cacheW false =
        .ok ⟨.LoggedIn, bounceDataW, .Drop, []⟩) ∧
    ∃ c, ((1 : Nat), c) ∈ regW ∧ ([5] : List Nat).contains c.slot = false :=
  ⟨C6_deathlink_exclusions.1 .LoggedIn bounceDataW ⟨"Bounce", ["DeathLink"], .obj []⟩ 5 "p"
      [5] cacheW false (by rfl) (by rfl) (by rfl) (by rfl),
    C6_deathlink_exclusions.2 regW 0 bounceNoDataW ⟨"Bounce", [], [], [], ["DeathLink"]⟩ [5] 1
      (fun _ => 0) 0 (fun _ => true) (1, true) (by rfl) (by rfl) (by decide)⟩

/-- C7 counterexample: in WaitingForRoomInfo a Bounce is intercepted before
the state guard and routed instead of closing the connection — the claim
says any client message closes the connection. -/
theorem C7_wfri_bounce_not_a_violation :
    handle_client_message .WaitingForRoomInfo bounceWfriW none [] cacheW false =
      .ok ⟨.WaitingForRoomInfo, bounceWfriW, .DropAndRoute, []⟩ := by rfl

/-- C7 amended: in WaitingForRoomInfo, any client message other than a
GetDataPackage, a Bounce, or an intercepted Say closes the connection. -/
theorem C7_wfri_closes (cmd : J) (slot_info : Option (Nat × String)) (excl : List Nat)
    (cache : DataPackageCache) (inj : Bool)
    (h1 : get_cmd cmd ≠ some "GetDataPackage")
    (h2 : get_cmd cmd ≠ some "Bounce")
    (h3 : sayIntercepted cmd = false) :
    handle_client_message .WaitingForRoomInfo cmd slot_info excl cache inj =
      .error "Received message from client while waiting for RoomInfo. This is a client bug." := by
  by_cases hsay : get_cmd cmd = some "Say"
  · simp only [sayIntercepted, hsay, beq_self_eq_true, Bool.true_and] at h3
    cases hp : parseSay cmd with
    | none => simp [handle_client_message, clientStateStep, hsay, h1, h2, hp]
    | some say =>
      rw [hp] at h3
      simp only [Bool.or_eq_false_iff, decide_eq_false_iff_not] at h3
      simp [handle_client_message, clientStateStep, hsay, h1, h2, hp, h3.1, h3.2]
  · simp [handle_client_message, clientStateStep, h1, h2, hsay]

/-- C7 witness: a Connect during WaitingForRoomInfo closes the connection. -/
theorem C7_wfri_closes_witness :
    handle_client_message .WaitingForRoomInfo (.obj [("cmd", .str "Connect")]) none [] cacheW
        false =
      .error "Received message from client while waiting for RoomInfo. This is a client bug." :=
  C7_wfri_closes (.obj [("cmd", .str "Connect")]) none [] cacheW false (by decide) (by decide)
    (by rfl)

/-- C8 counterexample: "5" is neither a JSON array of objects nor a single
JSON object, yet parse_message accepts it as a one-element batch — the
claim says it signals a parse error. -/
theorem C8_scalar_text_accepted :
    parse_message "5" = .ok [J.num (.int 5)] := by rfl

/-- C8 amended: parse_message yields the element list of any JSON array,
wraps any other JSON value as a one-element list, and errors exactly when
the text is not valid JSON. -/
theorem C8_parse_message_policy (t : String) :
    (∀ xs, parseJson t = some (J.arr xs) → parse_message t = .ok xs) ∧
    (∀ v, parseJson t = some v → (∀ xs, v ≠ J.arr xs) → parse_message t = .ok [v]) ∧
    (parseJson t = none → parse_message t = .error "Could not parse message as JSON") := by
  refine ⟨?_, ?_, ?_⟩
  · intro xs hx
    simp [parse_message, hx]
  · intro v hv hne
    cases v with
    | arr xs => exact absurd rfl (hne xs)
    | null => simp [parse_message, hv]
    | bool b => simp [parse_message, hv]
    | num n => simp [parse_message, hv]
    | str s => simp [parse_message, hv]
    | obj fs => simp [parse_message, hv]
  · intro hn
    simp [parse_message, hn]

/-- C8 witness: the single-value arm applied to the scalar text "7". -/
theorem C8_parse_message_policy_witness :
    parse_message "7" = .ok [J.num (.int 7)] :=
  (C8_parse_message_policy "7").2.1 (J.num (.int 7)) (by rfl) (fun xs h => J.noConfusion h)

/-- C9 counterexample: 667 three-byte characters are 667 ≤ 2000 characters
but 2001 bytes, so the Say is dropped with the too-long denial — the claim
says a Say of at most 2000 characters is not dropped for length. -/
theorem C9_multibyte_say_dropped :
    c9Text.length ≤ 2000 ∧
    processClientFrame .LoggedIn [c9SayW] (some (1, "p")) [] cacheW false [] 0 1 (fun _ => 0)
        0 (fun _ => true) =
      .cont .LoggedIn [] (some (.Values [sayTooLongDenial])) [] none [] 0 := by
  constructor
  · rw [show c9Text.length = 667 from length_mk_replicate 667 '€']
    decide
  · refine sayTooLongFrame .LoggedIn c9SayW ⟨"Say", c9Text⟩ (some (1, "p")) [] cacheW false []
      0 1 (fun _ => 0) 0 (fun _ => true) (by rfl) (by rfl) ?_
    rw [show c9Text.utf8ByteSize = 667 * '€'.utf8Size from utf8ByteSize_replicate 667 '€']
    decide

/-- C9 amended: the length cut-off counts UTF-8 bytes: a Say over 2000
bytes is dropped with the too-long denial, and a Say of at most 2000 bytes
is never dropped with that denial. -/
theorem C9_say_length_in_bytes (st : ConnectionState) (cmd : J) (say : Say)
    (slot_info : Option (Nat × String)) (excl : List Nat) (cache : DataPackageCache)
    (inj : Bool) (clients : List (Nat × ClientEntryM)) (cid : Nat) (prob : ℚ)
    (rolls : Nat → ℚ) (rk : Nat) (sendOk : Nat → Bool)
    (hcmd : get_cmd cmd = some "Say") (hp : parseSay cmd = some say) :
    (say.text.utf8ByteSize > MAX_SAY_LENGTH →
      processClientFrame st [cmd] slot_info excl cache inj clients cid prob rolls rk sendOk =
        .cont st [] (some (.Values [sayTooLongDenial])) [] none [] rk) ∧
    (¬ say.text.utf8ByteSize > MAX_SAY_LENGTH →
      ∀ out, handle_client_message st cmd slot_info excl cache inj = .ok out →
        out.decision ≠ .DropWithResponse sayTooLongDenial) := by
  constructor
  · intro hlen
    exact sayTooLongFrame st cmd say slot_info excl cache inj clients cid prob rolls rk
      sendOk hcmd hp hlen
  · intro hlen out hout
    simp only [handle_client_message, hcmd, Option.some.injEq, String.reduceEq, reduceIte,
      hp] at hout
    by_cases hcd : is_command say.text "countdown" = true
    · simp only [hlen, reduceIte, hcd, if_true] at hout
      cases slot_info with
      | none =>
        simp only [Except.ok.injEq] at hout
        subst hout
        simpa using countdown_ne_too_long
      | some si =>
        rcases si with ⟨slot, name⟩
        simp only [Except.ok.injEq] at hout
        subst hout
        simpa using countdown_ne_too_long
    · simp only [hlen, reduceIte, hcd, if_false] at hout
      exact clientStateStep_no_response st cmd inj out hout _
  
/-- C9 witness: the over-2000-byte arm applied to a 2001-character ASCII
Say. -/
theorem C9_say_length_in_bytes_witness :
    processClientFrame .LoggedIn [c9SayAsciiW] none [] cacheW false [] 0 1 (fun _ => 0) 0
        (fun _ => true) =
      .cont .LoggedIn [] (some (.Values [sayTooLongDenial])) [] none [] 0 :=
  (C9_say_length_in_bytes .LoggedIn c9SayAsciiW ⟨"Say", c9LongAscii⟩ none [] cacheW false []
      0 1 (fun _ => 0) 0 (fun _ => true) (by rfl) (by rfl)).1
    (by rw [show c9LongAscii.utf8ByteSize = 2001 * 'a'.utf8Size from
        utf8ByteSize_replicate 2001 'a']; decide)

/-- C10: route_bounce with a sender id absent from the registry delivers to
no client and records no metric, whatever the filters, probability, or
channel availability. -/
theorem C10_unregistered_sender_no_delivery (clients : List (Nat × ClientEntryM))
    (sender_id : Nat) (bounce : J) (excl : List Nat) (prob : ℚ) (rolls : Nat → ℚ) (rk : Nat)
    (sendOk : Nat → Bool) (h : lookupClient clients sender_id = none) :
    route_bounce clients sender_id bounce excl prob rolls rk sendOk = ([], rk) ∧
    bounceMetrics (route_bounce clients sender_id bounce excl prob rolls rk sendOk).1 = [] := by
  have hmain : route_bounce clients sender_id bounce excl prob rolls rk sendOk = ([], rk) := by
    rw [route_bounce]
    cases hp : parseBounceView bounce with
    | none => rfl
    | some bv => simp [h]
  exact ⟨hmain, by rw [hmain]; rfl⟩

/-- C10 witness: sender id 99 is absent from the two-client registry, so a
fully matching DeathLink Bounce reaches nobody. -/
theorem C10_unregistered_sender_no_delivery_witness :
    route_bounce regW 99 bounceDataW [] 1 (fun _ => 0) 0 (fun _ => true) = ([], 0) ∧
    bounceMetrics (route_bounce regW 99 bounceDataW [] 1 (fun _ => 0) 0 (fun _ => true)).1 = [] :=
  C10_unregistered_sender_no_delivery regW 99 bounceDataW [] 1 (fun _ => 0) 0 (fun _ => true)
    (by rfl)

end APX
